import Mathlib

/-!
Verification of the geocoding aggregation service (provider adapters,
resolution orchestrator with cache and retry, canonical data model).

The definitions below are a shallow embedding of the Python sources:
  app/services/geocoding_service.py (orchestrator: cache + retry pipeline),
  app/services/providers/{amap,baidu,google}_provider.py (adapters),
  app/models/geocoding.py (pydantic request/response models),
  app/main.py (HTTP route handlers) and mcp_server.py (MCP tool entry).

Modelling conventions:
  * floats become ℚ; provider JSON payloads become structures whose optional
    fields are Option-valued (a Python dict .get with a default becomes getD);
  * fallible code returns Except; the exception raised by a provider call is
    the error value; pydantic validation errors carry the offending fields;
  * the TTL cache is an association list wrapped in Option: None when
    CACHE_ENABLED is false, a TTLCache otherwise. Guards written
    `if self.cache:` are Python truthiness: TTLCache is a MutableMapping
    with a length and no boolean override, so an EMPTY cache is falsy,
    exactly like None. Expiry/eviction never fires in the claims considered;
  * the network is an oracle: an adapter is a function from the global
    adapter-invocation counter (and its request arguments) to a result.
-/

/-- Association-list lookup, mirroring Python dict access used by the cache
and the provider confidence tables. -/
def alookup {R : Type} : List (String × R) → String → Option R
  | [], _ => none
  | p :: ps, k => if p.1 = k then some p.2 else alookup ps k

/-- Lexicographic comparison of char lists: Python string comparison used by
sorted() in GeocodingService._get_cache_key. -/
def charListLt : List Char → List Char → Bool
  | [], [] => false
  | [], _ :: _ => true
  | _ :: _, [] => false
  | a :: as, b :: bs => if a < b then true else if b < a then false else charListLt as bs

/-- Split a char list at every occurrence of a separator, mirroring Python
str.split(sep): the empty list splits to one empty field. -/
def splitChar (sep : Char) (cs : List Char) : List (List Char) :=
  cs.foldr
    (fun c acc =>
      match acc with
      | [] => [[c]]
      | a :: as => if c = sep then [] :: a :: as else (c :: a) :: as)
    [[]]

/-- Value of a decimal digit character, none for other characters. -/
def digitVal (c : Char) : Option ℕ :=
  if c ≥ '0' ∧ c ≤ '9' then some (c.toNat - '0'.toNat) else none

/-- Accumulate a digit string into a natural number. -/
def digitsToNatAux (acc : ℕ) : List Char → Option ℕ
  | [] => some acc
  | c :: cs =>
    match digitVal c with
    | some d => digitsToNatAux (10 * acc + d) cs
    | none => none

/-- Parse a nonempty all-digit char list. -/
def digitsToNat (cs : List Char) : Option ℕ :=
  if cs.isEmpty then none else digitsToNatAux 0 cs

/-- Parse an unsigned decimal numeral, with an optional fractional part.
Models the subset of the Python float() grammar that provider coordinate
strings use (plain decimal notation, as in "116.4074"). -/
def parseUnsigned (cs : List Char) : Option ℚ :=
  match splitChar '.' cs with
  | [ip] => (digitsToNat ip).map (fun n => (n : ℚ))
  | [ip, fp] =>
    match digitsToNat ip, digitsToNat fp with
    | some n, some f => some ((n : ℚ) + (f : ℚ) / (10 : ℚ) ^ fp.length)
    | _, _ => none
  | _ => none

/-- Parse a signed decimal numeral (Python float() on coordinate strings). -/
def parseRatChars (cs : List Char) : Option ℚ :=
  match cs with
  | '-' :: rest => (parseUnsigned rest).map (fun q => -q)
  | '+' :: rest => parseUnsigned rest
  | _ => parseUnsigned cs

/-- Python truthiness on an optional string followed by the `or ""` idiom used
at the geocode cache-key construction: None and "" both collapse to "". -/
def pyOrEmpty : Option String → String
  | none => ""
  | some s => if s = "" then "" else s

/-- Python whitespace strip on a char list (str.strip in the address
validator). -/
def stripChars (cs : List Char) : List Char :=
  ((cs.dropWhile Char.isWhitespace).reverse.dropWhile Char.isWhitespace).reverse

/-- Failure raised by an adapter call or by canonical-response validation.
The repository raises plain Exception values; the constructors record the
distinct raise sites of the adapter code paths. -/
inductive ProviderFailure : Type
  | apiError (info : String)
  | noResults
  | missingLocation
  | incompleteCoords
  | badLocation
  | validation (fields : List String)
deriving DecidableEq, Repr

/-- Canonical geocode response (pydantic GeocodeResponse). address_components
is an open string mapping; nested values are flattened to strings. -/
structure GeocodeResponse : Type where
  latitude : ℚ
  longitude : ℚ
  formatted_address : String
  confidence : Option ℚ
  address_components : List (String × String)
deriving DecidableEq, Repr

/-- Validating constructor for GeocodeResponse: the pydantic field validators
reject latitude outside [-90, 90] and longitude outside [-180, 180], and
pydantic collects one error per failing field in field-declaration order. -/
def GeocodeResponse.build (lat lng : ℚ) (fa : String) (conf : Option ℚ)
    (comps : List (String × String)) : Except ProviderFailure GeocodeResponse :=
  let errs : List String :=
    (if -90 ≤ lat ∧ lat ≤ 90 then [] else ["latitude"]) ++
      (if -180 ≤ lng ∧ lng ≤ 180 then [] else ["longitude"])
  if errs = [] then .ok ⟨lat, lng, fa, conf, comps⟩ else .error (.validation errs)

/-- Canonical reverse-geocode response (pydantic ReverseGeocodeResponse); the
adapters always pass strings for the decomposed component fields. -/
structure ReverseGeocodeResponse : Type where
  address : String
  formatted_address : String
  address_components : List (String × String)
  confidence : Option ℚ
  country : String
  province : String
  city : String
  district : String
  street : String
  street_number : String
  postal_code : String
deriving DecidableEq, Repr

/-- Geocode request model (pydantic GeocodeRequest). -/
structure GeocodeRequest : Type where
  address : String
  city : Option String
deriving DecidableEq, Repr

/-- Address validity as enforced by GeocodeRequest: length between 1 and 500
and not blank after stripping whitespace. -/
def validAddress (a : String) : Prop :=
  1 ≤ a.length ∧ a.length ≤ 500 ∧ stripChars a.toList ≠ []

instance (a : String) : Decidable (validAddress a) := by
  unfold validAddress; infer_instance

/-- Reverse-geocode request model (pydantic ReverseGeocodeRequest). -/
structure ReverseGeocodeRequest : Type where
  latitude : ℚ
  longitude : ℚ
  radius : ℤ
deriving DecidableEq, Repr

/-- Field errors collected when validating a ReverseGeocodeRequest: pydantic
runs every field validator (declaration order latitude, longitude, radius)
and reports all failing fields together. -/
def reverseRequestErrors (lat lng : ℚ) (radius : ℤ) : List String :=
  (if -90 ≤ lat ∧ lat ≤ 90 then [] else ["latitude"]) ++
    (if -180 ≤ lng ∧ lng ≤ 180 then [] else ["longitude"]) ++
      (if 1 ≤ radius ∧ radius ≤ 50000 then [] else ["radius"])

/-- Validating constructor for ReverseGeocodeRequest. -/
def ReverseGeocodeRequest.build (lat lng : ℚ) (radius : ℤ) :
    Except (List String) ReverseGeocodeRequest :=
  if reverseRequestErrors lat lng radius = [] then .ok ⟨lat, lng, radius⟩
  else .error (reverseRequestErrors lat lng radius)

/-! ## Amap provider adapter (app/services/providers/amap_provider.py) -/

/-- One entry of the Amap geocode JSON envelope; a field whose dict .get has a
string default is a String, formatted_address defaults to the request address
so it stays Option-valued. -/
structure AmapGeocodeEntry : Type where
  location : String
  formatted_address : Option String
  level : String
  country : String
  province : String
  city : String
  district : String
  township : String
  street : String
  number : String
  adcode : String
deriving DecidableEq, Repr

/-- Decoded Amap geocode response envelope. -/
structure AmapGeocodeData : Type where
  status : String
  info : String
  geocodes : List AmapGeocodeEntry
deriving DecidableEq, Repr

/-- AmapProvider._calculate_confidence lookup table, in source order. -/
def amapLevelTable : List (String × ℚ) :=
  [("国家", 0.3), ("省", 0.4), ("市", 0.5), ("区县", 0.6), ("开发区", 0.7),
   ("乡镇", 0.7), ("村庄", 0.8), ("热点商圈", 0.8), ("兴趣点", 0.9),
   ("门牌号", 0.95), ("单元号", 0.98)]

/-- AmapProvider._calculate_confidence: table lookup with default 0.7. -/
def amapConfidence (level : String) : ℚ :=
  (alookup amapLevelTable level).getD 0.7

/-- The canonical address_components mapping built by AmapProvider.geocode. -/
def amapComponents (g : AmapGeocodeEntry) : List (String × String) :=
  [("country", g.country), ("province", g.province), ("city", g.city),
   ("district", g.district), ("township", g.township), ("street", g.street),
   ("number", g.number), ("adcode", g.adcode), ("level", g.level)]

/-- Response-processing core of AmapProvider.geocode: status gate, first
geocode entry, longitude-first "lng,lat" coordinate parse (exactly two
comma-separated floats), confidence from the level table, validated
canonical response. -/
def amapGeocodeCore (address : String) (d : AmapGeocodeData) :
    Except ProviderFailure GeocodeResponse :=
  if d.status ≠ "1" then .error (.apiError d.info)
  else
    match d.geocodes with
    | [] => .error .noResults
    | g :: _ =>
      if g.location = "" then .error .missingLocation
      else
        match (splitChar ',' g.location.toList).mapM parseRatChars with
        | some [lngv, latv] =>
          GeocodeResponse.build latv lngv (g.formatted_address.getD address)
            (some (amapConfidence g.level)) (amapComponents g)
        | _ => .error .badLocation

/-- streetNumber sub-object of the Amap regeocode addressComponent. -/
structure AmapStreetNumber : Type where
  street : String
  number : String
deriving DecidableEq, Repr

/-- addressComponent of the Amap regeocode envelope. -/
structure AmapAddressComponent : Type where
  country : String
  province : String
  city : String
  district : String
  township : String
  streetNumber : Option AmapStreetNumber
  adcode : String
  building : String
deriving DecidableEq, Repr

/-- regeocode object of the Amap reverse-geocode envelope. -/
structure AmapRegeocode : Type where
  formatted_address : String
  addressComponent : Option AmapAddressComponent
deriving DecidableEq, Repr

/-- Decoded Amap reverse-geocode response envelope; a missing or empty
regeocode dict (both falsy in Python) is none. -/
structure AmapReverseData : Type where
  status : String
  info : String
  regeocode : Option AmapRegeocode
deriving DecidableEq, Repr

/-- Default addressComponent (every .get falls back to its default). -/
def amapDefaultComponent : AmapAddressComponent :=
  ⟨"", "", "", "", "", none, "", ""⟩

/-- Outbound query parameters of AmapProvider.reverse_geocode, in insertion
order; the radius sent is min(radius, 3000). Numeric values are rendered
with toString in place of Python str(). -/
def amapReverseParams (key : String) (lat lng : ℚ) (radius : ℤ) :
    List (String × String) :=
  [("key", key), ("location", toString lng ++ "," ++ toString lat),
   ("radius", toString (min radius 3000)), ("extensions", "all"),
   ("output", "json")]

/-- Response-processing core of AmapProvider.reverse_geocode. The lat, lng
and radius arguments are those of the call; the constructed response never
reads them, and its confidence is the constant 0.9. -/
def amapReverseCore (lat lng : ℚ) (radius : ℤ) (d : AmapReverseData) :
    Except ProviderFailure ReverseGeocodeResponse :=
  if d.status ≠ "1" then .error (.apiError d.info)
  else
    match d.regeocode with
    | none => .error .noResults
    | some rg =>
      let ac := rg.addressComponent.getD amapDefaultComponent
      let sn := ac.streetNumber.getD ⟨"", ""⟩
      .ok ⟨rg.formatted_address, rg.formatted_address,
        [("country", ac.country), ("province", ac.province), ("city", ac.city),
         ("district", ac.district), ("township", ac.township),
         ("street", sn.street), ("street_number", sn.number),
         ("adcode", ac.adcode), ("building", ac.building)],
        some 0.9, ac.country, ac.province, ac.city, ac.district,
        sn.street, sn.number, ac.adcode⟩

/-! ## Baidu provider adapter (app/services/providers/baidu_provider.py) -/

/-- location object of the Baidu geocode result. -/
structure BaiduLocation : Type where
  lat : Option ℚ
  lng : Option ℚ
deriving DecidableEq, Repr

/-- result object of the Baidu geocode envelope. -/
structure BaiduGeocodeResult : Type where
  location : Option BaiduLocation
  confidence : ℚ
  comprehension : ℚ
  level : String
deriving DecidableEq, Repr

/-- Decoded Baidu geocode envelope; status is the numeric Baidu status code. -/
structure BaiduGeocodeData : Type where
  status : ℤ
  message : String
  result : Option BaiduGeocodeResult
deriving DecidableEq, Repr

/-- Default Baidu geocode result (dict .get defaults). -/
def baiduDefaultGeocodeResult : BaiduGeocodeResult := ⟨none, 0, 0, ""⟩

/-- Processing of the result object of BaiduProvider.geocode: coordinates
from result.location, confidence rescaled from 0-100 to 0-1. -/
def baiduGeocodeFromResult (address : String) (res : BaiduGeocodeResult) :
    Except ProviderFailure GeocodeResponse :=
  match res.location with
  | none => .error .missingLocation
  | some loc =>
    match loc.lat, loc.lng with
    | some la, some ln =>
      GeocodeResponse.build la ln address (some (res.confidence / 100))
        [("country", "中国"), ("province", ""), ("city", ""),
         ("district", ""), ("street", ""), ("level", res.level)]
    | _, _ => .error .incompleteCoords

/-- Response-processing core of BaiduProvider.geocode: numeric status gate,
then the defaulted result object is processed. -/
def baiduGeocodeCore (address : String) (d : BaiduGeocodeData) :
    Except ProviderFailure GeocodeResponse :=
  if d.status ≠ 0 then .error (.apiError d.message)
  else baiduGeocodeFromResult address (d.result.getD baiduDefaultGeocodeResult)

/-- addressComponent of the Baidu reverse-geocode result. -/
structure BaiduAddressComponent : Type where
  country : String
  province : String
  city : String
  district : String
  street : String
  street_number : String
  adcode : String
  country_code : String
  direction : String
  distance : String
deriving DecidableEq, Repr

/-- result object of the Baidu reverse-geocode envelope. -/
structure BaiduReverseResult : Type where
  formatted_address : String
  addressComponent : Option BaiduAddressComponent
deriving DecidableEq, Repr

/-- Decoded Baidu reverse-geocode envelope. -/
structure BaiduReverseData : Type where
  status : ℤ
  message : String
  result : Option BaiduReverseResult
deriving DecidableEq, Repr

/-- Default Baidu reverse addressComponent (dict .get defaults). -/
def baiduDefaultComponent : BaiduAddressComponent :=
  ⟨"", "", "", "", "", "", "", "", "", ""⟩

/-- Outbound query parameters of BaiduProvider.reverse_geocode, in insertion
order. The requested radius does not appear among them. -/
def baiduReverseParams (ak : String) (lat lng : ℚ) (radius : ℤ) :
    List (String × String) :=
  [("ak", ak), ("location", toString lat ++ "," ++ toString lng),
   ("output", "json"), ("coordtype", "wgs84ll"), ("extensions_poi", "1")]

/-- Response-processing core of BaiduProvider.reverse_geocode: numeric status
gate, then the response is built unconditionally (there is no missing-result
check in this adapter) with the constant confidence 0.85. -/
def baiduReverseCore (lat lng : ℚ) (radius : ℤ) (d : BaiduReverseData) :
    Except ProviderFailure ReverseGeocodeResponse :=
  if d.status ≠ 0 then .error (.apiError d.message)
  else
    let res := d.result.getD ⟨"", none⟩
    let ac := res.addressComponent.getD baiduDefaultComponent
    .ok ⟨res.formatted_address, res.formatted_address,
      [("country", ac.country), ("province", ac.province), ("city", ac.city),
       ("district", ac.district), ("street", ac.street),
       ("street_number", ac.street_number), ("adcode", ac.adcode),
       ("country_code", ac.country_code), ("direction", ac.direction),
       ("distance", ac.distance)],
      some 0.85, ac.country, ac.province, ac.city, ac.district,
      ac.street, ac.street_number, ac.adcode⟩

/-! ## Google provider adapter (app/services/providers/google_provider.py) -/

/-- location object of the Google geometry. -/
structure GoogleLocation : Type where
  lat : Option ℚ
  lng : Option ℚ
deriving DecidableEq, Repr

/-- geometry object of a Google result; a missing or empty location dict
(both falsy) is none. -/
structure GoogleGeometry : Type where
  location : Option GoogleLocation
  location_type : String
deriving DecidableEq, Repr

/-- One address component of a Google result. -/
structure GoogleAddressComponent : Type where
  types : List String
  long_name : String
  short_name : String
deriving DecidableEq, Repr

/-- One result of the Google geocode envelope. -/
structure GoogleResult : Type where
  geometry : Option GoogleGeometry
  formatted_address : Option String
  address_components : List GoogleAddressComponent
deriving DecidableEq, Repr

/-- Decoded Google geocode envelope. -/
structure GoogleGeocodeData : Type where
  status : String
  results : List GoogleResult
deriving DecidableEq, Repr

/-- Insert into a string mapping, overwriting an existing binding (Python
dict assignment). -/
def insertAssoc (l : List (String × String)) (k v : String) :
    List (String × String) :=
  (k, v) :: l.filter (fun p => p.1 != k)

/-- GoogleProvider._parse_address_components: flatten each component into a
mapping keyed by every type name, plus a "_short" variant. -/
def googleParseComponents (cs : List GoogleAddressComponent) :
    List (String × String) :=
  cs.foldl
    (fun acc c =>
      c.types.foldl
        (fun acc2 t => insertAssoc (insertAssoc acc2 t c.long_name)
          (t ++ "_short") c.short_name)
        acc)
    []

/-- GoogleProvider._calculate_confidence lookup table, in source order. -/
def googleTypeTable : List (String × ℚ) :=
  [("ROOFTOP", 0.95), ("RANGE_INTERPOLATED", 0.85),
   ("GEOMETRIC_CENTER", 0.75), ("APPROXIMATE", 0.6)]

/-- GoogleProvider._calculate_confidence: table lookup with default 0.7. -/
def googleConfidence (location_type : String) : ℚ :=
  (alookup googleTypeTable location_type).getD 0.7

/-- Default Google geometry (dict .get defaults). -/
def googleDefaultGeometry : GoogleGeometry := ⟨none, ""⟩

/-- Processing of the first result of GoogleProvider.geocode, given its
defaulted geometry object. -/
def googleGeocodeFromResult (address : String) (r : GoogleResult)
    (geom : GoogleGeometry) : Except ProviderFailure GeocodeResponse :=
  match geom.location with
  | none => .error .missingLocation
  | some loc =>
    match loc.lat, loc.lng with
    | some la, some ln =>
      GeocodeResponse.build la ln (r.formatted_address.getD address)
        (some (googleConfidence geom.location_type))
        (googleParseComponents r.address_components)
    | _, _ => .error .incompleteCoords

/-- Response-processing core of GoogleProvider.geocode. -/
def googleGeocodeCore (address : String) (d : GoogleGeocodeData) :
    Except ProviderFailure GeocodeResponse :=
  if d.status ≠ "OK" then .error (.apiError d.status)
  else
    match d.results with
    | [] => .error .noResults
    | r :: _ =>
      googleGeocodeFromResult address r (r.geometry.getD googleDefaultGeometry)

/-- Outbound query parameters of GoogleProvider.reverse_geocode, in insertion
order. The requested radius does not appear among them. -/
def googleReverseParams (key : String) (lat lng : ℚ) (radius : ℤ) :
    List (String × String) :=
  [("key", key), ("latlng", toString lat ++ "," ++ toString lng),
   ("result_type",
    "street_address|route|neighborhood|locality|administrative_area_level_1|country")]

/-- Response-processing core of GoogleProvider.reverse_geocode: status gate,
nonempty results gate, first result, constant confidence 0.9, decomposed
fields projected from the parsed components. -/
def googleReverseCore (lat lng : ℚ) (radius : ℤ) (d : GoogleGeocodeData) :
    Except ProviderFailure ReverseGeocodeResponse :=
  if d.status ≠ "OK" then .error (.apiError d.status)
  else
    match d.results with
    | [] => .error .noResults
    | r :: _ =>
      let comps := googleParseComponents r.address_components
      let fa := r.formatted_address.getD ""
      .ok ⟨fa, fa, comps, some 0.9,
        (alookup comps "country").getD "",
        (alookup comps "administrative_area_level_1").getD "",
        (alookup comps "locality").getD "",
        (alookup comps "administrative_area_level_2").getD "",
        (alookup comps "route").getD "",
        (alookup comps "street_number").getD "",
        (alookup comps "postal_code").getD ""⟩

/-! ## Resolution orchestrator (app/services/geocoding_service.py) -/

/-- Error surfaced by the orchestrator retry loop: the last adapter exception
re-raised unchanged, or the defensive fallback Exception raised when no
exception was recorded (raise last_exception or Exception(...)). -/
inductive ServiceError (ε : Type) : Type
  | adapter (e : ε)
  | fallback
deriving Repr

/-- Mutable orchestrator state visible to the claims: the cache attribute
(None when caching is disabled, the TTLCache contents otherwise) and the
cumulative number of provider-adapter invocations. -/
structure SvcState (R : Type) : Type where
  cache : Option (List (String × R))
  adapterCalls : ℕ
deriving Repr

/-- Python truthiness of self.cache, as tested by `if self.cache:` - false
when the attribute is None (CACHE_ENABLED unset) and also when the TTLCache
is empty, since TTLCache is a MutableMapping with a length and no boolean
override. -/
def pyTruthyCache {R : Type} : Option (List (String × R)) → Bool
  | none => false
  | some c => !c.isEmpty

/-- The orchestrator state right after GeocodingService.__init__: an empty
TTLCache when CACHE_ENABLED is set, otherwise no cache; no adapter calls. -/
def initialState {R : Type} (cacheEnabled : Bool) : SvcState R :=
  ⟨if cacheEnabled then some [] else none, 0⟩

/-- Outcome of the retry loop: updated adapter-invocation counter, the backoff
sleeps performed (in order), and the final result. -/
structure RetryOut (ε R : Type) : Type where
  calls : ℕ
  sleeps : List ℕ
  outcome : Except (ServiceError ε) R
deriving Repr

/-- Observable outcome of one orchestrator call. -/
structure CallResult (ε R : Type) : Type where
  result : Except (ServiceError ε) R
  state : SvcState R
  sleeps : List ℕ
deriving Repr

/-- The while-loop of GeocodingService.geocode / reverse_geocode. rc is the
Python retry_count, fuel = n - rc many iterations remain, last is
last_exception, calls the global adapter-invocation counter, sleeps the
backoff log. After a failed attempt retry_count becomes rc+1 and, when
another attempt remains, the loop sleeps 2^(rc+1) time units. -/
def retryAux {ε R : Type} (n : ℕ) (attempt : ℕ → Except ε R) :
    ℕ → ℕ → Option ε → ℕ → List ℕ → RetryOut ε R
  | _, 0, last, calls, sleeps =>
    ⟨calls, sleeps,
     .error (match last with | some e => .adapter e | none => .fallback)⟩
  | rc, fuel + 1, _, calls, sleeps =>
    match attempt calls with
    | .ok a => ⟨calls + 1, sleeps, .ok a⟩
    | .error e =>
      if rc + 1 < n then
        retryAux n attempt (rc + 1) fuel (some e) (calls + 1)
          (sleeps ++ [2 ^ (rc + 1)])
      else retryAux n attempt (rc + 1) fuel (some e) (calls + 1) sleeps

/-- Run the retry loop from retry_count = 0 with the configured maximum
attempt count n (settings.GEOCODING_RETRY_TIMES). -/
def runRetry {ε R : Type} (n : ℕ) (attempt : ℕ → Except ε R) (calls : ℕ) :
    RetryOut ε R :=
  retryAux n attempt 0 n none calls []

/-- Insert a key ordered by Python string comparison (stable for the distinct
keys used by the service). -/
def insertByKey {R : Type} (p : String × R) :
    List (String × R) → List (String × R)
  | [] => [p]
  | q :: qs =>
    if charListLt p.1.toList q.1.toList then p :: q :: qs
    else q :: insertByKey p qs

/-- sorted() over the keyword items of _get_cache_key. -/
def sortByKey {R : Type} : List (String × R) → List (String × R)
  | [] => []
  | p :: ps => insertByKey p (sortByKey ps)

/-- GeocodingService._get_cache_key: operation name joined with the sorted
"key:value" parts by ":". -/
def mkCacheKey (operation : String) (kwargs : List (String × String)) : String :=
  String.intercalate ":"
    (operation :: (sortByKey kwargs).map (fun p => p.1 ++ ":" ++ p.2))

/-- Cache key of GeocodingService.geocode: city is normalized by the
city or "" idiom before entering the key. -/
def geocodeKey (address : String) (city : Option String) : String :=
  mkCacheKey "geocode" [("address", address), ("city", pyOrEmpty city)]

/-- Round-half-to-even on ℚ (Python round()). -/
def roundHalfEven (q : ℚ) : ℤ :=
  let f := ⌊q⌋
  if q - f < 1/2 then f
  else if 1/2 < q - f then f + 1
  else if f % 2 = 0 then f else f + 1

/-- round(x, 6) of the reverse-geocode cache key. -/
def round6 (q : ℚ) : ℚ := (roundHalfEven (q * 1000000) : ℚ) / 1000000

/-- Cache key of GeocodingService.reverse_geocode: coordinates rounded to six
decimal places; numeric values rendered with toString in place of str(). -/
def reverseGeocodeKey (lat lng : ℚ) (radius : ℤ) : String :=
  mkCacheKey "reverse_geocode"
    [("lat", toString (round6 lat)), ("lng", toString (round6 lng)),
     ("radius", toString radius)]

/-- GeocodingService.geocode. cache_key starts as None; only when
`if self.cache:` holds - the cache exists AND is nonempty, by Python
truthiness - is the key computed and the cache consulted (a hit returns
immediately with no adapter call and no sleeps), and only then does the
success-path store `if self.cache and cache_key:` run (the cache is
unchanged between the guard and the store within one call). When the guard
is false, cache_key stays None and the store is skipped: a fresh service
never populates its cache. The adapter receives the global invocation
counter together with the address and city arguments. -/
def geocodeSvc {ε R : Type} (n : ℕ)
    (adapter : ℕ → String → Option String → Except ε R)
    (address : String) (city : Option String) (s : SvcState R) :
    CallResult ε R :=
  if pyTruthyCache s.cache then
    match alookup (s.cache.getD []) (geocodeKey address city) with
    | some r => ⟨.ok r, s, []⟩
    | none =>
      let out := runRetry n (fun i => adapter i address city) s.adapterCalls
      match out.outcome with
      | .ok r =>
        ⟨.ok r,
         ⟨s.cache.map (fun c => (geocodeKey address city, r) :: c),
          out.calls⟩,
         out.sleeps⟩
      | .error e => ⟨.error e, ⟨s.cache, out.calls⟩, out.sleeps⟩
  else
    let out := runRetry n (fun i => adapter i address city) s.adapterCalls
    match out.outcome with
    | .ok r => ⟨.ok r, ⟨s.cache, out.calls⟩, out.sleeps⟩
    | .error e => ⟨.error e, ⟨s.cache, out.calls⟩, out.sleeps⟩

/-- GeocodingService.reverse_geocode: same pipeline (including the Python
truthiness guard on the cache) keyed on the rounded coordinates and the
radius; the radius is forwarded to the adapter unchanged. -/
def reverseGeocodeSvc {ε R : Type} (n : ℕ)
    (adapter : ℕ → ℚ → ℚ → ℤ → Except ε R)
    (lat lng : ℚ) (radius : ℤ) (s : SvcState R) : CallResult ε R :=
  if pyTruthyCache s.cache then
    match alookup (s.cache.getD []) (reverseGeocodeKey lat lng radius) with
    | some r => ⟨.ok r, s, []⟩
    | none =>
      let out := runRetry n (fun i => adapter i lat lng radius) s.adapterCalls
      match out.outcome with
      | .ok r =>
        ⟨.ok r,
         ⟨s.cache.map (fun c => (reverseGeocodeKey lat lng radius, r) :: c),
          out.calls⟩,
         out.sleeps⟩
      | .error e => ⟨.error e, ⟨s.cache, out.calls⟩, out.sleeps⟩
  else
    let out := runRetry n (fun i => adapter i lat lng radius) s.adapterCalls
    match out.outcome with
    | .ok r => ⟨.ok r, ⟨s.cache, out.calls⟩, out.sleeps⟩
    | .error e => ⟨.error e, ⟨s.cache, out.calls⟩, out.sleeps⟩

/-- A sequence of identical geocode calls, each continuing from the state the
previous call produced. -/
def geocodeCallsTrace {ε R : Type} (n : ℕ)
    (adapter : ℕ → String → Option String → Except ε R)
    (address : String) (city : Option String) :
    ℕ → SvcState R → List (CallResult ε R)
  | 0, _ => []
  | N + 1, s =>
    let c := geocodeSvc n adapter address city s
    c :: geocodeCallsTrace n adapter address city N c.state

/-- A sequence of identical reverse-geocode calls. -/
def reverseCallsTrace {ε R : Type} (n : ℕ)
    (adapter : ℕ → ℚ → ℚ → ℤ → Except ε R)
    (lat lng : ℚ) (radius : ℤ) :
    ℕ → SvcState R → List (CallResult ε R)
  | 0, _ => []
  | N + 1, s =>
    let c := reverseGeocodeSvc n adapter lat lng radius s
    c :: reverseCallsTrace n adapter lat lng radius N c.state

/-! ## Boundary entry points (app/main.py routes, mcp_server.py tools) -/

/-- The POST /geocode route handler calls service.geocode(request.address)
only: the request city hint is not forwarded, so the service sees its
default city = None. -/
def routeGeocode {ε R : Type} (req : GeocodeRequest)
    (n : ℕ) (adapter : ℕ → String → Option String → Except ε R)
    (s : SvcState R) : CallResult ε R :=
  geocodeSvc n adapter req.address none s

/-- The POST /reverse-geocode route handler calls
service.reverse_geocode(request.latitude, request.longitude) only: the
request radius is not forwarded, so the service sees its default
radius = 1000. -/
def routeReverseGeocode {ε R : Type} (req : ReverseGeocodeRequest)
    (n : ℕ)
    (adapter : ℕ → ℚ → ℚ → ℤ → Except ε R) (s : SvcState R) :
    CallResult ε R :=
  reverseGeocodeSvc n adapter req.latitude req.longitude 1000 s

/-- Error at a validated reverse-geocode entry point: a pydantic
ValidationError with its failing fields, or an error from the service. -/
inductive EntryError (ε : Type) : Type
  | validation (fields : List String)
  | service (e : ServiceError ε)
deriving Repr

/-- A validated reverse-geocode entry (the MCP reverse_geocode tool, and the
HTTP route modulo its radius dropping): the ReverseGeocodeRequest model is
constructed first, so out-of-range coordinates are rejected before the
service - and hence any network call - is reached. -/
def reverseEntry {ε R : Type} (n : ℕ)
    (adapter : ℕ → ℚ → ℚ → ℤ → Except ε R)
    (lat lng : ℚ) (radius : ℤ) (s : SvcState R) :
    Except (EntryError ε) R × SvcState R × List ℕ :=
  match ReverseGeocodeRequest.build lat lng radius with
  | .error fields => (.error (.validation fields), s, [])
  | .ok req =>
    let c := reverseGeocodeSvc n adapter req.latitude
      req.longitude req.radius s
    (match c.result with
     | .ok r => .ok r
     | .error e => .error (.service e), c.state, c.sleeps)

/-! ## Helper lemmas -/

theorem alookup_mem {R : Type} :
    ∀ (l : List (String × R)) (k : String) (v : R),
      alookup l k = some v → (k, v) ∈ l := by
  intro l
  induction l with
  | nil => intro k v h; simp [alookup] at h
  | cons p ps ih =>
    intro k v h
    by_cases hk : p.1 = k
    · simp [alookup, hk] at h
      subst h
      subst hk
      simp
    · simp [alookup, hk] at h
      right
      exact ih k v h

theorem alookup_not_mem {R : Type} :
    ∀ (l : List (String × R)) (k : String),
      k ∉ l.map Prod.fst → alookup l k = none := by
  intro l
  induction l with
  | nil => intro k _; rfl
  | cons p ps ih =>
    intro k h
    simp only [List.map_cons, List.mem_cons] at h
    push_neg at h
    have h1 : p.1 ≠ k := fun he => h.1 he.symm
    simp [alookup, h1, ih k h.2]

theorem retryAux_step {ε R : Type} (n : ℕ) (attempt : ℕ → Except ε R)
    (rc f : ℕ) (last : Option ε) (calls : ℕ) (sleeps : List ℕ) :
    retryAux n attempt rc (f + 1) last calls sleeps =
      match attempt calls with
      | .ok a => ⟨calls + 1, sleeps, .ok a⟩
      | .error e =>
        if rc + 1 < n then
          retryAux n attempt (rc + 1) f (some e) (calls + 1)
            (sleeps ++ [2 ^ (rc + 1)])
        else retryAux n attempt (rc + 1) f (some e) (calls + 1) sleeps := rfl

theorem retryAux_fail {ε R : Type} (n : ℕ) (err : ℕ → ε) :
    ∀ fuel rc calls sleeps last, rc + fuel = n → 1 ≤ fuel →
      retryAux (ε := ε) (R := R) n (fun i => Except.error (err i)) rc fuel
          last calls sleeps =
        ⟨calls + fuel,
         sleeps ++ (List.range (fuel - 1)).map (fun k => 2 ^ (rc + 1 + k)),
         Except.error (.adapter (err (calls + fuel - 1)))⟩ := by
  intro fuel
  induction fuel with
  | zero => intro rc calls sleeps last _ h1; omega
  | succ f ih =>
    intro rc calls sleeps last h _
    cases f with
    | zero =>
      have hn : ¬ (rc + 1 < n) := by omega
      simp [retryAux, hn]
    | succ f2 =>
      have hn : rc + 1 < n := by omega
      have hrec := ih (rc + 1) (calls + 1) (sleeps ++ [2 ^ (rc + 1)])
        (some (err calls)) (by omega) (by omega)
      have hmap : (List.range (f2 + 1)).map (fun k => 2 ^ (rc + 1 + k)) =
          2 ^ (rc + 1) :: (List.range f2).map (fun k => 2 ^ (rc + 1 + 1 + k)) := by
        rw [List.range_succ_eq_map, List.map_cons, List.map_map]
        refine congrArg₂ _ (by simp) (List.map_congr_left ?_)
        intro a _
        simp only [Function.comp_apply]
        congr 1
        omega
      rw [retryAux_step]
      simp only [if_pos hn]
      rw [hrec]
      simp only [RetryOut.mk.injEq]
      refine ⟨by omega, ?_, ?_⟩
      · have h2 : f2 + 1 + 1 - 1 = f2 + 1 := by omega
        rw [h2, hmap]
        simp
      · exact congrArg (fun t => Except.error (ServiceError.adapter (err t)))
          (by omega)

theorem runRetry_fail {ε R : Type} (n : ℕ) (err : ℕ → ε) (calls : ℕ)
    (hn : 1 ≤ n) :
    runRetry (ε := ε) (R := R) n (fun i => Except.error (err i)) calls =
      ⟨calls + n, (List.range (n - 1)).map (fun k => 2 ^ (1 + k)),
       Except.error (.adapter (err (calls + n - 1)))⟩ := by
  unfold runRetry
  have := retryAux_fail (R := R) n err n 0 calls [] none (by omega) hn
  simpa [Nat.zero_add] using this

theorem runRetry_firstOk {ε R : Type} (n : ℕ)
    (attempt : ℕ → Except ε R) (calls : ℕ) (r : R)
    (hn : 1 ≤ n) (h0 : attempt calls = .ok r) :
    runRetry n attempt calls = ⟨calls + 1, [], .ok r⟩ := by
  unfold runRetry
  obtain ⟨f, rfl⟩ : ∃ f, n = f + 1 := ⟨n - 1, by omega⟩
  simp [retryAux, h0]

/-- Claim C1: when the active adapter raises on every attempt, geocode (and
symmetrically reverse_geocode) invokes the adapter exactly
GEOCODING_RETRY_TIMES = n times, sleeps 2^attempt after each failed attempt
except the last (attempt counter starting at 1, so the sleeps are
2^1 .. 2^(n-1)), and finally re-raises the last adapter error unchanged. -/
theorem geocode_retry_exhaustion_spec {ε R : Type}
    (n : ℕ) (err : ℕ → ε) (address : String) (city : Option String)
    (lat lng : ℚ) (radius : ℤ) (s : SvcState R)
    (hn : 1 ≤ n) (hs : pyTruthyCache s.cache = false) :
    geocodeSvc n (fun i _ _ => .error (err i)) address city s =
      ⟨.error (.adapter (err (s.adapterCalls + n - 1))),
       ⟨s.cache, s.adapterCalls + n⟩,
       (List.range (n - 1)).map (fun k => 2 ^ (1 + k))⟩ ∧
    reverseGeocodeSvc n (fun i _ _ _ => .error (err i))
        lat lng radius s =
      ⟨.error (.adapter (err (s.adapterCalls + n - 1))),
       ⟨s.cache, s.adapterCalls + n⟩,
       (List.range (n - 1)).map (fun k => 2 ^ (1 + k))⟩ := by
  obtain ⟨cache, calls⟩ := s
  simp only at hs
  have hrun := runRetry_fail (R := R) n err calls hn
  simp [geocodeSvc, reverseGeocodeSvc, hs, hrun]

theorem geocode_retry_exhaustion_witness :
    geocodeSvc 3 (fun i _ _ => .error i) "a" none
        (⟨some [], 0⟩ : SvcState ℕ) =
      ⟨.error (.adapter (0 + 3 - 1)), ⟨some [], 0 + 3⟩,
       (List.range (3 - 1)).map (fun k => 2 ^ (1 + k))⟩ ∧
    reverseGeocodeSvc 3 (fun i _ _ _ => .error i) 0 0 1000
        (⟨some [], 0⟩ : SvcState ℕ) =
      ⟨.error (.adapter (0 + 3 - 1)), ⟨some [], 0 + 3⟩,
       (List.range (3 - 1)).map (fun k => 2 ^ (1 + k))⟩ :=
  geocode_retry_exhaustion_spec 3 (fun i => i) "a" none 0 0 1000
    ⟨some [], 0⟩ (by decide) rfl

/-- Claim C2 is false of the program: caching is inert. On a fresh service
with CACHE_ENABLED=true the TTLCache is empty, so `if self.cache:` is false
by Python truthiness, cache_key stays None and the success-path store never
runs - the cache never leaves the empty state. Two identical geocode (and
reverse-geocode) calls whose adapter succeeds deterministically therefore
invoke the adapter twice, not at most once: the second call re-runs the
retry pipeline (the adapter observes invocation indices 0 and 1, and the
counter reaches 2) and the cache is still empty afterwards. -/
theorem geocode_cache_inert_bug :
    geocodeCallsTrace (ε := Unit) 3 (fun i _ _ => .ok i) "北京" none 2
        (initialState true) =
      [⟨.ok 0, ⟨some [], 1⟩, []⟩, ⟨.ok 1, ⟨some [], 2⟩, []⟩] ∧
    reverseCallsTrace (ε := Unit) 3 (fun i _ _ _ => .ok i) 0 0 1000 2
        (initialState true) =
      [⟨.ok 0, ⟨some [], 1⟩, []⟩, ⟨.ok 1, ⟨some [], 2⟩, []⟩] :=
  ⟨rfl, rfl⟩

/-- Claim C10: its premise is true - city = None and city = "" produce the
same cache key, by the city or "" idiom - but the claimed serving never
happens in the program: the empty TTLCache is falsy, so the first call
stores nothing, and the call with the other city variant invokes the
adapter again (the counter reaches 2 and the result is the second adapter
response) instead of returning a cached one. -/
theorem cache_key_city_collapse_bug :
    (∀ a : String, geocodeKey a none = geocodeKey a (some "")) ∧
    (geocodeSvc (ε := Unit) (R := ℕ) 3 (fun i _ _ => .ok i) "北京" none
      (initialState true)).state = ⟨some [], 1⟩ ∧
    geocodeSvc (ε := Unit) 3 (fun i _ _ => .ok i) "北京" (some "")
        (geocodeSvc (ε := Unit) (R := ℕ) 3 (fun i _ _ => .ok i) "北京" none
          (initialState true)).state =
      ⟨.ok 1, ⟨some [], 2⟩, []⟩ :=
  ⟨fun _ => rfl, rfl, rfl⟩

/-- Claim C9: the HTTP routes drop the optional request parameters before
the orchestrator: /geocode behaves identically for any request city hint
and invokes the service with city = None (a probe adapter observes none),
and /reverse-geocode behaves identically for any request radius and always
reaches the adapter with the default radius 1000. -/
theorem route_optional_params_dropped_spec {ε R : Type}
    (n : ℕ) (adapterG : ℕ → String → Option String → Except ε R)
    (adapterR : ℕ → ℚ → ℚ → ℤ → Except ε R)
    (address : String) (c₁ c₂ : Option String) (lat lng : ℚ) (r₁ r₂ : ℤ)
    (s : SvcState R) (req : ReverseGeocodeRequest) (greq : GeocodeRequest)
    (sZ : SvcState ℤ) (sC : SvcState (Option String)) (hn : 1 ≤ n)
    (hsZ : sZ.cache = none) (hsC : sC.cache = none) :
    routeGeocode ⟨address, c₁⟩ n adapterG s =
      routeGeocode ⟨address, c₂⟩ n adapterG s ∧
    routeReverseGeocode ⟨lat, lng, r₁⟩ n adapterR s =
      routeReverseGeocode ⟨lat, lng, r₂⟩ n adapterR s ∧
    (routeReverseGeocode (ε := ε) req n (fun _ _ _ rad => .ok rad)
      sZ).result = .ok 1000 ∧
    (routeGeocode (ε := ε) greq n (fun _ _ c => .ok c) sC).result =
      .ok none := by
  refine ⟨rfl, rfl, ?_, ?_⟩
  · have hrun := runRetry_firstOk (ε := ε) (R := ℤ) n
      (fun _ => Except.ok 1000) sZ.adapterCalls 1000 hn rfl
    simp [routeReverseGeocode, reverseGeocodeSvc, pyTruthyCache, hsZ, hrun]
  · have hrun := runRetry_firstOk (ε := ε) (R := Option String) n
      (fun _ => Except.ok none) sC.adapterCalls none hn rfl
    simp [routeGeocode, geocodeSvc, pyTruthyCache, hsC, hrun]

theorem route_optional_params_dropped_witness :
    routeGeocode (ε := Unit) (R := ℕ) ⟨"a", none⟩ 3 (fun _ _ _ => .ok 5)
        ⟨some [], 0⟩ =
      routeGeocode ⟨"a", some "x"⟩ 3 (fun _ _ _ => .ok 5) ⟨some [], 0⟩ ∧
    routeReverseGeocode (ε := Unit) (R := ℕ) ⟨0, 0, 500⟩ 3
        (fun _ _ _ _ => .ok 5) ⟨some [], 0⟩ =
      routeReverseGeocode ⟨0, 0, 9999⟩ 3 (fun _ _ _ _ => .ok 5)
        ⟨some [], 0⟩ ∧
    (routeReverseGeocode (ε := Unit) (⟨0, 0, 500⟩ : ReverseGeocodeRequest)
      3 (fun _ _ _ rad => .ok rad) ⟨none, 0⟩).result = .ok 1000 ∧
    (routeGeocode (ε := Unit) (⟨"a", some "x"⟩ : GeocodeRequest) 3
      (fun _ _ c => .ok c) ⟨none, 0⟩).result = .ok none :=
  route_optional_params_dropped_spec 3 (fun _ _ _ => .ok 5)
    (fun _ _ _ _ => .ok 5) "a" none (some "x") 0 0 500 9999 ⟨some [], 0⟩
    ⟨0, 0, 500⟩ ⟨"a", some "x"⟩ ⟨none, 0⟩ ⟨none, 0⟩ (by decide) rfl rfl

/-- Claim C3: out-of-range coordinates are rejected at every validated
reverse-geocode entry with a ValidationError naming each out-of-range field,
before the service runs: the state (and so the adapter-invocation counter)
is untouched and no backoff occurs. In particular (91, 181) fails naming
both latitude and longitude. -/
theorem reverse_request_validation_spec {ε R : Type}
    (n : ℕ) (adapter : ℕ → ℚ → ℚ → ℤ → Except ε R) (s : SvcState R) :
    (∀ lat lng : ℚ, ∀ radius : ℤ,
      ¬(-90 ≤ lat ∧ lat ≤ 90) ∨ ¬(-180 ≤ lng ∧ lng ≤ 180) →
      ∃ fields,
        reverseEntry n adapter lat lng radius s =
          (.error (.validation fields), s, []) ∧
        (¬(-90 ≤ lat ∧ lat ≤ 90) → "latitude" ∈ fields) ∧
        (¬(-180 ≤ lng ∧ lng ≤ 180) → "longitude" ∈ fields)) ∧
    reverseEntry n adapter 91 181 1000 s =
      (.error (.validation ["latitude", "longitude"]), s, []) := by
  constructor
  · intro lat lng radius h
    have hne : reverseRequestErrors lat lng radius ≠ [] := by
      rcases h with h | h
      · simp [reverseRequestErrors, h]
      · simp [reverseRequestErrors, h]
    refine ⟨reverseRequestErrors lat lng radius, ?_, ?_, ?_⟩
    · simp [reverseEntry, ReverseGeocodeRequest.build, hne]
    · intro hlat
      simp [reverseRequestErrors, hlat]
    · intro hlng
      simp [reverseRequestErrors, hlng]
  · have h1 : ¬((-90 : ℚ) ≤ 91 ∧ (91 : ℚ) ≤ 90) := by norm_num
    have h2 : ¬((-180 : ℚ) ≤ 181 ∧ (181 : ℚ) ≤ 180) := by norm_num
    have h3 : (1 : ℤ) ≤ 1000 ∧ (1000 : ℤ) ≤ 50000 := by norm_num
    have herr : reverseRequestErrors 91 181 1000 = ["latitude", "longitude"] := by
      simp [reverseRequestErrors, h1, h2, h3]
    simp [reverseEntry, ReverseGeocodeRequest.build, herr]

theorem reverse_request_validation_witness :
    ∃ fields,
      reverseEntry (ε := Unit) (R := ℕ) 3 (fun _ _ _ _ => .ok 5)
          91 181 1000 ⟨some [], 0⟩ =
        (.error (.validation fields), ⟨some [], 0⟩, []) ∧
      (¬((-90 : ℚ) ≤ 91 ∧ (91 : ℚ) ≤ 90) → "latitude" ∈ fields) ∧
      (¬((-180 : ℚ) ≤ 181 ∧ (181 : ℚ) ≤ 180) → "longitude" ∈ fields) :=
  (reverse_request_validation_spec 3 (fun _ _ _ _ => .ok 5)
    ⟨some [], 0⟩).1 91 181 1000 (Or.inl (by decide))

/-- Coordinate ranges enforced by the canonical response model. -/
def inRangeResp (r : GeocodeResponse) : Prop :=
  -90 ≤ r.latitude ∧ r.latitude ≤ 90 ∧ -180 ≤ r.longitude ∧ r.longitude ≤ 180

instance (r : GeocodeResponse) : Decidable (inRangeResp r) := by
  unfold inRangeResp; infer_instance

theorem build_ok_inRange (lat lng : ℚ) (fa : String) (conf : Option ℚ)
    (comps : List (String × String)) (r : GeocodeResponse)
    (h : GeocodeResponse.build lat lng fa conf comps = .ok r) :
    inRangeResp r := by
  by_cases h1 : -90 ≤ lat ∧ lat ≤ 90 <;>
    by_cases h2 : -180 ≤ lng ∧ lng ≤ 180 <;>
      simp [GeocodeResponse.build, h1, h2] at h
  rw [← h]
  exact ⟨h1.1, h1.2, h2.1, h2.2⟩

theorem retryAux_ok_exists {ε R : Type} (n : ℕ) (attempt : ℕ → Except ε R) :
    ∀ fuel rc last calls sleeps r,
      (retryAux n attempt rc fuel last calls sleeps).outcome = .ok r →
      ∃ i, attempt i = .ok r := by
  intro fuel
  induction fuel with
  | zero =>
    intro rc last calls sleeps r h
    cases last <;> simp [retryAux] at h
  | succ f ih =>
    intro rc last calls sleeps r h
    rw [retryAux_step] at h
    cases hatt : attempt calls with
    | ok a =>
      rw [hatt] at h
      simp at h
      exact ⟨calls, by rw [hatt, h]⟩
    | error e =>
      rw [hatt] at h
      simp at h
      by_cases hc : rc + 1 < n
      · rw [if_pos hc] at h
        exact ih _ _ _ _ _ h
      · rw [if_neg hc] at h
        exact ih _ _ _ _ _ h

theorem runRetry_ok_exists {ε R : Type} (n : ℕ) (attempt : ℕ → Except ε R)
    (calls : ℕ) (r : R) (h : (runRetry n attempt calls).outcome = .ok r) :
    ∃ i, attempt i = .ok r :=
  retryAux_ok_exists n attempt n 0 none calls [] r h

theorem amapGeocodeCore_ok_inRange (address : String) (d : AmapGeocodeData)
    (r : GeocodeResponse) (h : amapGeocodeCore address d = .ok r) :
    inRangeResp r := by
  unfold amapGeocodeCore at h
  split at h
  · simp at h
  · split at h
    · simp at h
    · split at h
      · simp at h
      · split at h
        · exact build_ok_inRange _ _ _ _ _ _ h
        · simp at h

theorem baiduGeocodeCore_ok_inRange (address : String) (d : BaiduGeocodeData)
    (r : GeocodeResponse) (h : baiduGeocodeCore address d = .ok r) :
    inRangeResp r := by
  unfold baiduGeocodeCore baiduGeocodeFromResult at h
  split at h
  · simp at h
  · split at h
    · simp at h
    · split at h
      · exact build_ok_inRange _ _ _ _ _ _ h
      · simp at h

theorem googleGeocodeCore_ok_inRange (address : String)
    (d : GoogleGeocodeData) (r : GeocodeResponse)
    (h : googleGeocodeCore address d = .ok r) : inRangeResp r := by
  unfold googleGeocodeCore googleGeocodeFromResult at h
  split at h
  · simp at h
  · split at h
    · simp at h
    · split at h
      · simp at h
      · split at h
        · exact build_ok_inRange _ _ _ _ _ _ h
        · simp at h

/-- Claim C4: every successful geocode result carries in-range coordinates:
each provider core only returns responses accepted by the validating
canonical model, and the orchestrator (cache hit or adapter call, caching
on or off) only returns in-range responses whenever the adapter does and
the cache holds only in-range responses. -/
theorem geocode_range_spec :
    (∀ (address : String) (d : AmapGeocodeData) (r : GeocodeResponse),
      amapGeocodeCore address d = .ok r → inRangeResp r) ∧
    (∀ (address : String) (d : BaiduGeocodeData) (r : GeocodeResponse),
      baiduGeocodeCore address d = .ok r → inRangeResp r) ∧
    (∀ (address : String) (d : GoogleGeocodeData) (r : GeocodeResponse),
      googleGeocodeCore address d = .ok r → inRangeResp r) ∧
    (∀ (ε : Type) (n : ℕ)
      (adapter : ℕ → String → Option String → Except ε GeocodeResponse)
      (address : String) (city : Option String)
      (s : SvcState GeocodeResponse) (r : GeocodeResponse),
      (∀ i a c r₀, adapter i a c = .ok r₀ → inRangeResp r₀) →
      (∀ c k r₀, s.cache = some c → (k, r₀) ∈ c → inRangeResp r₀) →
      validAddress address →
      (geocodeSvc n adapter address city s).result = .ok r →
      inRangeResp r) := by
  refine ⟨amapGeocodeCore_ok_inRange, baiduGeocodeCore_ok_inRange,
    googleGeocodeCore_ok_inRange, ?_⟩
  intro ε n adapter address city s r hada hcache _ h
  cases htr : pyTruthyCache s.cache with
  | true =>
    rw [geocodeSvc, htr] at h
    simp only [if_true] at h
    cases hl : alookup (s.cache.getD []) (geocodeKey address city) with
    | some r₀ =>
      rw [hl] at h
      simp at h
      cases hc : s.cache with
      | none =>
        rw [hc] at htr
        simp [pyTruthyCache] at htr
      | some c =>
        rw [hc] at hl
        simp only [Option.getD_some] at hl
        exact h ▸ hcache c _ r₀ hc (alookup_mem _ _ _ hl)
    | none =>
      rw [hl] at h
      simp only at h
      cases ho : (runRetry n (fun i => adapter i address city)
          s.adapterCalls).outcome with
      | ok r₀ =>
        obtain ⟨i, hi⟩ := runRetry_ok_exists _ _ _ _ ho
        rw [ho] at h
        simp at h
        exact h ▸ hada i address city r₀ hi
      | error e =>
        rw [ho] at h
        simp at h
  | false =>
    rw [geocodeSvc, htr] at h
    simp only [Bool.false_eq_true, if_false] at h
    cases ho : (runRetry n (fun i => adapter i address city)
        s.adapterCalls).outcome with
    | ok r₀ =>
      obtain ⟨i, hi⟩ := runRetry_ok_exists _ _ _ _ ho
      rw [ho] at h
      simp at h
      exact h ▸ hada i address city r₀ hi
    | error e =>
      rw [ho] at h
      simp at h

theorem geocode_range_witness :
    inRangeResp ⟨1, 2, "x", none, []⟩ :=
  geocode_range_spec.2.2.2 Unit 1 (fun _ _ _ => .ok ⟨1, 2, "x", none, []⟩)
    "a" none ⟨none, 0⟩ ⟨1, 2, "x", none, []⟩
    (fun _ _ _ r₀ h => by cases h; decide)
    (fun c _ _ hc => absurd hc (by simp))
    (by decide) rfl

/-- The stub Amap geocode entry of the specification scenario. -/
def amapStubEntry : AmapGeocodeEntry :=
  ⟨"116.4074,39.9042", some "北京市朝阳区三里屯", "兴趣点",
   "", "", "", "", "", "", "", ""⟩

/-- The stub Amap-shaped provider response of the specification scenario. -/
def amapStubData : AmapGeocodeData := ⟨"1", "", [amapStubEntry]⟩

theorem amapStub_parse :
    (splitChar ',' "116.4074,39.9042".toList).mapM parseRatChars =
      some [((116 : ℕ) : ℚ) + ((4074 : ℕ) : ℚ) / (10 : ℚ) ^ 4,
            ((39 : ℕ) : ℚ) + ((9042 : ℕ) : ℚ) / (10 : ℚ) ^ 4] := rfl

/-- Claim C5: against the stub Amap-shaped response, the Amap geocode
adapter parses the location string longitude-first and maps level 兴趣点
through the confidence table: latitude 39.9042, longitude 116.4074,
confidence 0.9. -/
theorem amap_geocode_scenario_spec :
    ∃ r, amapGeocodeCore "北京市朝阳区三里屯" amapStubData = .ok r ∧
      r.latitude = 39.9042 ∧ r.longitude = 116.4074 ∧
      r.confidence = some 0.9 := by
  have hconf : amapConfidence "兴趣点" = 0.9 := by
    simp [amapConfidence, amapLevelTable, alookup]
  refine ⟨⟨((39 : ℕ) : ℚ) + ((9042 : ℕ) : ℚ) / (10 : ℚ) ^ 4,
    ((116 : ℕ) : ℚ) + ((4074 : ℕ) : ℚ) / (10 : ℚ) ^ 4,
    "北京市朝阳区三里屯", some (amapConfidence "兴趣点"),
    amapComponents amapStubEntry⟩, ?_, by norm_num, by norm_num,
    by rw [hconf]⟩
  show amapGeocodeCore "北京市朝阳区三里屯" amapStubData = _
  unfold amapGeocodeCore
  simp only [amapStubData, amapStubEntry, amapStub_parse]
  norm_num [GeocodeResponse.build]
  exact fun hfalse => absurd hfalse (by decide)

/-- Claim C6: on every successful reverse lookup the returned confidence is
the fixed per-provider constant (Amap 0.9, Baidu 0.85, Google 0.9),
whatever the coordinates, the radius, and the provider response content. -/
theorem reverse_confidence_constant_spec :
    (∀ (lat lng : ℚ) (radius : ℤ) (d : AmapReverseData)
      (r : ReverseGeocodeResponse),
      amapReverseCore lat lng radius d = .ok r → r.confidence = some 0.9) ∧
    (∀ (lat lng : ℚ) (radius : ℤ) (d : BaiduReverseData)
      (r : ReverseGeocodeResponse),
      baiduReverseCore lat lng radius d = .ok r → r.confidence = some 0.85) ∧
    (∀ (lat lng : ℚ) (radius : ℤ) (d : GoogleGeocodeData)
      (r : ReverseGeocodeResponse),
      googleReverseCore lat lng radius d = .ok r → r.confidence = some 0.9) := by
  refine ⟨?_, ?_, ?_⟩
  · intro lat lng radius d r h
    unfold amapReverseCore at h
    split at h
    · simp at h
    · split at h
      · simp at h
      · simp at h
        rw [← h]
  · intro lat lng radius d r h
    unfold baiduReverseCore at h
    split at h
    · simp at h
    · simp at h
      rw [← h]
  · intro lat lng radius d r h
    unfold googleReverseCore at h
    split at h
    · simp at h
    · split at h
      · simp at h
      · simp at h
        rw [← h]

theorem reverse_confidence_constant_witness :
    (∃ r, amapReverseCore 0 0 1000 ⟨"1", "", some ⟨"某地", none⟩⟩ = .ok r ∧
      r.confidence = some 0.9) ∧
    (∃ r, baiduReverseCore 0 0 1000 ⟨0, "", none⟩ = .ok r ∧
      r.confidence = some 0.85) ∧
    (∃ r, googleReverseCore 0 0 1000 ⟨"OK", [⟨none, none, []⟩]⟩ = .ok r ∧
      r.confidence = some 0.9) :=
  ⟨⟨_, rfl, reverse_confidence_constant_spec.1 0 0 1000
      ⟨"1", "", some ⟨"某地", none⟩⟩ _ rfl⟩,
   ⟨_, rfl, reverse_confidence_constant_spec.2.1 0 0 1000 ⟨0, "", none⟩ _ rfl⟩,
   ⟨_, rfl, reverse_confidence_constant_spec.2.2 0 0 1000
      ⟨"OK", [⟨none, none, []⟩]⟩ _ rfl⟩⟩

/-- Counterexample to claim C7 as stated: the Baidu and Google reverse
adapters transmit no radius parameter at all (so no clamped radius is
transmitted), here at the concrete request radius 5000. -/
theorem reverse_radius_claim_counterexample :
    alookup (baiduReverseParams "k" 39 116 5000) "radius" = none ∧
    alookup (googleReverseParams "k" 39 116 5000) "radius" = none := by
  exact ⟨rfl, rfl⟩

/-- Claim C7 (amended): only the Amap reverse adapter transmits a radius,
equal to min(requested radius, 3000); the Baidu and Google reverse adapters
ignore the requested radius and transmit no radius parameter. -/
theorem reverse_radius_transmission_amended (key : String) (lat lng : ℚ)
    (radius : ℤ) :
    alookup (amapReverseParams key lat lng radius) "radius" =
      some (toString (min radius 3000)) ∧
    alookup (baiduReverseParams key lat lng radius) "radius" = none ∧
    alookup (googleReverseParams key lat lng radius) "radius" = none := by
  refine ⟨?_, ?_, ?_⟩ <;>
    simp [amapReverseParams, baiduReverseParams, googleReverseParams, alookup]

/-- The Amap precision indicators ranked from coarsest to finest: the source
table is written in ascending precision order. -/
def amapRankedLevels : List String := amapLevelTable.map Prod.fst

/-- The Google precision indicators ranked from coarsest to finest (the
source table lists them finest first). -/
def googleRankedTypes : List String :=
  ["APPROXIMATE", "GEOMETRIC_CENTER", "RANGE_INTERPOLATED", "ROOFTOP"]

/-- Claim C8: per-provider confidence monotonicity along the precision
ranking - a higher-ranked indicator never yields a lower confidence - and
an indicator absent from the table yields the default confidence 0.7. -/
theorem confidence_table_monotone_spec :
    (∀ i j : Fin amapRankedLevels.length, i ≤ j →
      amapConfidence (amapRankedLevels.get i) ≤
        amapConfidence (amapRankedLevels.get j)) ∧
    (∀ i j : Fin googleRankedTypes.length, i ≤ j →
      googleConfidence (googleRankedTypes.get i) ≤
        googleConfidence (googleRankedTypes.get j)) ∧
    (∀ s : String, s ∉ amapLevelTable.map Prod.fst →
      amapConfidence s = 0.7) ∧
    (∀ s : String, s ∉ googleTypeTable.map Prod.fst →
      googleConfidence s = 0.7) := by
  have hlistA : amapRankedLevels.map amapConfidence =
      [0.3, 0.4, 0.5, 0.6, 0.7, 0.7, 0.8, 0.8, 0.9, 0.95, 0.98] := by rfl
  have hlistG : googleRankedTypes.map googleConfidence =
      [0.6, 0.75, 0.85, 0.95] := by rfl
  have hpairA : List.Pairwise (· ≤ ·) (amapRankedLevels.map amapConfidence) := by
    rw [hlistA]
    norm_num [List.pairwise_cons]
  have hpairG : List.Pairwise (· ≤ ·) (googleRankedTypes.map googleConfidence) := by
    rw [hlistG]
    norm_num [List.pairwise_cons]
  refine ⟨?_, ?_, ?_, ?_⟩
  · intro i j hij
    rcases lt_or_eq_of_le hij with hlt | heq
    · have hi : i.1 < (amapRankedLevels.map amapConfidence).length := by
        rw [List.length_map]; exact i.2
      have hj : j.1 < (amapRankedLevels.map amapConfidence).length := by
        rw [List.length_map]; exact j.2
      have hp := List.pairwise_iff_getElem.mp hpairA i.1 j.1 hi hj hlt
      rw [List.getElem_map, List.getElem_map] at hp
      simpa [List.get_eq_getElem] using hp
    · rw [heq]
  · intro i j hij
    rcases lt_or_eq_of_le hij with hlt | heq
    · have hi : i.1 < (googleRankedTypes.map googleConfidence).length := by
        rw [List.length_map]; exact i.2
      have hj : j.1 < (googleRankedTypes.map googleConfidence).length := by
        rw [List.length_map]; exact j.2
      have hp := List.pairwise_iff_getElem.mp hpairG i.1 j.1 hi hj hlt
      rw [List.getElem_map, List.getElem_map] at hp
      simpa [List.get_eq_getElem] using hp
    · rw [heq]
  · intro s hs
    unfold amapConfidence
    rw [alookup_not_mem _ _ hs]
    rfl
  · intro s hs
    unfold googleConfidence
    rw [alookup_not_mem _ _ hs]
    rfl

theorem confidence_table_monotone_witness :
    amapConfidence (amapRankedLevels.get ⟨0, by decide⟩) ≤
      amapConfidence (amapRankedLevels.get ⟨10, by decide⟩) ∧
    googleConfidence (googleRankedTypes.get ⟨0, by decide⟩) ≤
      googleConfidence (googleRankedTypes.get ⟨3, by decide⟩) ∧
    amapConfidence "没有" = 0.7 ∧ googleConfidence "missing" = 0.7 :=
  ⟨confidence_table_monotone_spec.1 ⟨0, by decide⟩ ⟨10, by decide⟩ (by decide),
   confidence_table_monotone_spec.2.1 ⟨0, by decide⟩ ⟨3, by decide⟩ (by decide),
   confidence_table_monotone_spec.2.2.1 "没有" (by decide),
   confidence_table_monotone_spec.2.2.2 "missing" (by decide)⟩
